import Mathlib

/-!
# Verification of the GstStabilizer core against its specification

Shallow embedding, in Lean 4, of the stabilization core found in
`gst_virtual_tripod.py` (feature tracking, stream muxing) and
`flow_corrector.py` (transform estimation and corrective warp).

Pixel coordinates are rationals (the source uses machine floats only as a
carrier for exact small values in the properties proved here); images and
serialized payloads are opaque tokens; the external OpenCV primitives
(corner detection, pyramidal tracking, homography fit, perspective warp)
enter the model as per-frame outcome parameters, following the external
vision-primitives contract of the specification.
-/

namespace GstStabilizer

/-- A 2D point in frame-pixel space (`(x, y)` float coordinates in the
source, embedded as rationals). -/
abbrev Point := ℚ × ℚ

/-- The ignore-box configuration of `OpticalFlowFinder`: the four
`ignore_box_*` integer properties, each defaulting to `-1` (disabled). -/
structure IgnoreBoxCfg where
  minX : Int
  maxX : Int
  minY : Int
  maxY : Int
deriving DecidableEq, Repr

/-- `OpticalFlowFinder._has_ignore_box`: the box is active exactly when none
of the four coordinates is the sentinel `-1`
(`(-1) not in (min_x, max_x, min_y, max_y)`). -/
def hasIgnoreBox (c : IgnoreBoxCfg) : Bool :=
  c.minX ≠ -1 && c.maxX ≠ -1 && c.minY ≠ -1 && c.maxY ≠ -1

/-- `OpticalFlowFinder._in_ignore_box((x, y))`: true when the box is active
and `min_x ≤ x ≤ max_x` and `min_y ≤ y ≤ max_y`. -/
def inIgnoreBox (c : IgnoreBoxCfg) (p : Point) : Bool :=
  hasIgnoreBox c && (c.minX : ℚ) ≤ p.1 && p.1 ≤ (c.maxX : ℚ)
    && (c.minY : ℚ) ≤ p.2 && p.2 ≤ (c.maxY : ℚ)

/-- `OpticalFlowFinder._filter_features(features, flter, errors)`: keeps
`p` for each `(status, p, err)` in `zip(flter, features, errors)` with
`status` truthy and `p` not in the ignore box.  (The error-based filter in
the source is commented out.) -/
def filterFeatures (c : IgnoreBoxCfg) (features : List Point)
    (flter : List Bool) (errors : List ℚ) : List Point :=
  ((flter.zip (features.zip errors)).filter
      (fun se => se.1 && !(inIgnoreBox c se.2.1))).map (fun se => se.2.1)

/-- The filtering stage of `OpticalFlowFinder.optical_flow` (lines 209-210):
`corners0` and `corners1` are each filtered independently with the same
`status` and `track_errors` lists. -/
def opticalFlowFilter (c : IgnoreBoxCfg) (corners0 corners1 : List Point)
    (status : List Bool) (trackErrors : List ℚ) : List Point × List Point :=
  (filterFeatures c corners0 status trackErrors,
   filterFeatures c corners1 status trackErrors)

/-! ## The ignore mask (`OpticalFlowFinder.chain`, lines 127-138)

The source allocates `width * height` bytes initialised to `1` and then
executes `data[y*height + x] = 0` for every `x` in
`xrange(min_x, max_x+1)` and `y` in `xrange(min_y, max_y+1)`.  Python list
assignment semantics: a negative index within `-len .. -1` wraps around,
anything further out of range raises `IndexError` (modelled as `none`). -/

/-- Python sequence item assignment `l[i] = v` with wrap-around for negative
indices and `none` for an out-of-range index. -/
def pySet (l : List Nat) (i : Int) (v : Nat) : Option (List Nat) :=
  if 0 ≤ i ∧ i < (l.length : Int) then some (l.set i.toNat v)
  else if -(l.length : Int) ≤ i ∧ i < 0 then
    some (l.set (i + l.length).toNat v)
  else none

/-- The integers of Python `xrange(a, b)`: `a, a+1, ..., b-1` (empty when
`b ≤ a`). -/
def intRange (a b : Int) : List Int :=
  (List.range (b - a).toNat).map (fun k => a + k)

/-- The mask-filling loop of `OpticalFlowFinder.chain`: starting from
`width * height` bytes of `1`, write `0` at linear index `y*height + x`
for each `(x, y)` of the configured box.  `none` models the `IndexError`
the source would raise on an out-of-range write. -/
def buildMaskData (width height : Nat) (c : IgnoreBoxCfg) : Option (List Nat) :=
  (intRange c.minX (c.maxX + 1)).foldl
    (fun acc x => (intRange c.minY (c.maxY + 1)).foldl
      (fun acc2 y => acc2.bind (fun d => pySet d (y * height + x) 0))
      acc)
    (some (List.replicate (width * height) 1))

/-- The mask the specification describes, written from its words: for a
frame of `width × height` pixels stored row-major (pixel `(x, y)` at linear
index `y*width + x`, the layout of the `height × width` `CV_8UC1` matrix
the data is loaded into), value `0` at exactly the pixels with
`min_x ≤ x ≤ max_x` and `min_y ≤ y ≤ max_y`, and `1` elsewhere. -/
def specMaskList (width height : Nat) (c : IgnoreBoxCfg) : List Nat :=
  (List.range (width * height)).map (fun i =>
    let x : Int := (i % width : Nat)
    let y : Int := (i / width : Nat)
    if c.minX ≤ x ∧ x ≤ c.maxX ∧ c.minY ≤ y ∧ y ≤ c.maxY then 0 else 1)

/-! ## The stream muxer (`OpticalFlowMuxer`, `gst_virtual_tripod.py` 220-271)

Two FIFO queues (`_pending_flow`, `_pending_main`); `_chain` appends the
arriving buffer to the queue of its pad and calls `_try_mux`.  A flow
buffer carries a timestamp and a pickled payload; `cPickle.loads` is
embedded as the total decode `loadsFlow` on opaque payload tokens.  A main
buffer is represented by its timestamp (its pixel content plays no role in
the muxing logic). -/

/-- A buffer on the flow sink pad: timestamp plus pickled payload. -/
structure FlowBuf where
  ts : Nat
  data : Nat
deriving DecidableEq, Repr

/-- `cPickle.loads` on the flow payload (opaque round-tripping token). -/
def loadsFlow (d : Nat) : Nat := d

/-- GStreamer flow return of a chain call: `gst.FLOW_OK` or
`gst.FLOW_ERROR`. -/
inductive FlowRet where
  | ok
  | error
deriving DecidableEq, Repr

/-- The muxer's queue state. -/
structure MuxState where
  pendingFlow : List FlowBuf
  pendingMain : List Nat
deriving DecidableEq, Repr

/-- The outcome of one `_try_mux` call: the flow return, the new queue
state, the pair handed to `mux` and emitted (if any), and the motion
record deserialized during the call (if any). -/
structure MuxStep where
  status : FlowRet
  state : MuxState
  emitted : Option (Nat × Nat)
  decoded : Option Nat
deriving DecidableEq, Repr

/-- `OpticalFlowMuxer._try_mux`: if both queues are non-empty, pop the head
of each, deserialize the flow payload, and compare timestamps: equal hands
`(buf, flow)` to `mux` (emission), different returns `gst.FLOW_ERROR`
("All going wrong!").  Otherwise do nothing and return `gst.FLOW_OK`. -/
def tryMux (s : MuxState) : MuxStep :=
  match s.pendingFlow, s.pendingMain with
  | flowBuf :: restFlow, buf :: restMain =>
      let flow := loadsFlow flowBuf.data
      if buf = flowBuf.ts then
        { status := .ok
          state := { pendingFlow := restFlow, pendingMain := restMain }
          emitted := some (buf, flow)
          decoded := some flow }
      else
        { status := .error
          state := { pendingFlow := restFlow, pendingMain := restMain }
          emitted := none
          decoded := some flow }
  | _, _ => { status := .ok, state := s, emitted := none, decoded := none }

/-- An arrival on one of the muxer's two sink pads. -/
inductive MuxEvent where
  | main (ts : Nat)
  | flow (b : FlowBuf)
deriving DecidableEq, Repr

/-- `OpticalFlowMuxer._chain`: append the buffer to the queue of the pad it
arrived on, then attempt a pairing. -/
def muxChain (s : MuxState) (e : MuxEvent) : MuxStep :=
  match e with
  | .main ts => tryMux { s with pendingMain := s.pendingMain ++ [ts] }
  | .flow b => tryMux { s with pendingFlow := s.pendingFlow ++ [b] }

/-- Run a sequence of arrivals through the muxer, collecting the emitted
pairs and whether every chain call returned `gst.FLOW_OK`. -/
def runMux : MuxState → List MuxEvent → List (Nat × Nat) × Bool
  | _, [] => ([], true)
  | s, e :: rest =>
      let step := muxChain s e
      let (outs, okRest) := runMux step.state rest
      (step.emitted.toList ++ outs, (step.status = .ok) && okRest)

/-- The empty initial queue state of `OpticalFlowMuxer.__init__`. -/
def initMuxState : MuxState := { pendingFlow := [], pendingMain := [] }

/-- Interleave a main-timestamp list and a flow-buffer list into one
arrival sequence: `true` takes the next main arrival, `false` the next
flow arrival (a choice whose side is exhausted is skipped). -/
def interleave : List Bool → List Nat → List FlowBuf → List MuxEvent
  | [], _, _ => []
  | true :: bs, m :: ms, fs => .main m :: interleave bs ms fs
  | true :: bs, [], fs => interleave bs [] fs
  | false :: bs, ms, f :: fs => .flow f :: interleave bs ms fs
  | false :: bs, ms, [] => interleave bs ms []

/-- All Boolean lists of a given length. -/
def allBoolLists : Nat → List (List Bool)
  | 0 => [[]]
  | n + 1 => (allBoolLists n).flatMap (fun l => [true :: l, false :: l])

/-! ## The transform corrector (`flow_corrector.py`, `OpticalFlowCorrector`)

3×3 transform matrices over ℚ (the source stores them as `numpy.float128`
and downcasts to `float64` only at the warp call; the algebraic claims
proved here are about the sequence of multiplications, embedded exactly).
Images are opaque tokens.  The external OpenCV calls — the flow finder,
`cv2.findHomography` and `cv2.warpPerspective` — enter as per-frame
outcomes carried by the step input, `none` standing for the `cv2.error`
the call would raise. -/

/-- A 3×3 homogeneous transform matrix with rational entries. -/
structure Mat3 where
  a00 : ℚ
  a01 : ℚ
  a02 : ℚ
  a10 : ℚ
  a11 : ℚ
  a12 : ℚ
  a20 : ℚ
  a21 : ℚ
  a22 : ℚ
deriving DecidableEq, Repr

/-- The 3×3 identity matrix, the initial `_reference_transform` of
`OpticalFlowCorrector.__init__`. -/
def idMat : Mat3 := ⟨1, 0, 0, 0, 1, 0, 0, 0, 1⟩

/-- Matrix product `m.dot(n)` (row-by-column). -/
def mul3 (m n : Mat3) : Mat3 :=
  ⟨m.a00 * n.a00 + m.a01 * n.a10 + m.a02 * n.a20,
   m.a00 * n.a01 + m.a01 * n.a11 + m.a02 * n.a21,
   m.a00 * n.a02 + m.a01 * n.a12 + m.a02 * n.a22,
   m.a10 * n.a00 + m.a11 * n.a10 + m.a12 * n.a20,
   m.a10 * n.a01 + m.a11 * n.a11 + m.a12 * n.a21,
   m.a10 * n.a02 + m.a11 * n.a12 + m.a12 * n.a22,
   m.a20 * n.a00 + m.a21 * n.a10 + m.a22 * n.a20,
   m.a20 * n.a01 + m.a21 * n.a11 + m.a22 * n.a21,
   m.a20 * n.a02 + m.a21 * n.a12 + m.a22 * n.a22⟩

/-- Product of a list of matrices, head leftmost:
`matProd [A, B, C] = A · B · C`. -/
def matProd (l : List Mat3) : Mat3 := l.foldr mul3 idMat

/-- An opaque image token (`img_of_buf` result / warped output). -/
abbrev Img := Nat

/-- An opaque feature blob (the finder's per-algorithm feature data). -/
abbrev Blob := Nat

/-- A GStreamer buffer on the corrector's video pads: image content plus
timestamp (`buf_of_img` copies the timestamp of its `bufmodel`). -/
structure Buf where
  img : Img
  ts : Nat
deriving DecidableEq, Repr

/-- A correspondence set: the `(points0, points1)` pair the finder
returns. -/
structure Flow where
  points0 : List Point
  points1 : List Point
deriving DecidableEq, Repr

/-- The corrector's configuration: the `algorithm` enum property
(`LUCAS_KANADE = 1`, `SURF = 2`) and the `multiply_transforms` Boolean
property. -/
structure CorrConfig where
  algorithm : Int
  multiplyTransforms : Bool
deriving DecidableEq, Repr

/-- The mutable state of `OpticalFlowCorrector`: `_reference_img`,
`_reference_blob`, `_last_output_img`, `_reference_transform`, and whether
`_finder` has been created. -/
structure CorrState where
  referenceImg : Option Img
  referenceBlob : Option Blob
  lastOutput : Option Img
  referenceTransform : Mat3
  finderCreated : Bool
deriving DecidableEq, Repr

/-- The state after `OpticalFlowCorrector.__init__`: everything absent and
the accumulator at the identity. -/
def initCorrState : CorrState :=
  { referenceImg := none
    referenceBlob := none
    lastOutput := none
    referenceTransform := idMat
    finderCreated := false }

/-- A Python exception escaping `_chain` uncaught. -/
inductive PyError where
  | valueError
  | attrError
deriving DecidableEq, Repr

/-- The outcome of one `_chain` call: a buffer pushed on the source pad
with the resulting state, or an uncaught exception. -/
inductive ChainResult where
  | pushed (b : Buf) (s : CorrState)
  | raised (e : PyError) (s : CorrState)
deriving DecidableEq, Repr

/-- The per-frame inputs of one `_chain` call: the sink buffer and the
outcomes of the external vision-primitive calls made during that frame.
`flow`/`blob` are what `_get_flow` would return; `fitResult` is
`cv2.findHomography` on the flow (`none` = `cv2.error` raised, which the
external contract mandates below 4 correspondences); `warpFn` is
`cv2.warpPerspective` as a function of source image, transform and
destination image (`none` = `cv2.error` raised); `warpBlobResult` is
`finder.warp_blob(blob, transform)`. -/
structure StepInput where
  buf : Buf
  flow : Option Flow
  blob : Blob
  fitResult : Option Mat3
  warpFn : Img → Mat3 → Img → Option Img
  warpBlobResult : Blob

/-- `OpticalFlowCorrector._chain`, one call.  Mirrors the source line by
line: first-frame initialisation; lazy finder creation (raising
`ValueError` on an unknown algorithm); `None`-flow pass-through; then the
`try` block — homography fit, accumulator update (`transform.dot(acc)`
when `multiply_transforms` else replacement), warp of the current frame
over a copy of `_last_output_img` — whose `cv2.error` handler pushes the
raw buffer and resets `_reference_img` to the current frame's image and
`_reference_blob` to `None`. -/
def chainStep (cfg : CorrConfig) (s : CorrState) (inp : StepInput) : ChainResult :=
  match s.referenceImg with
  | none =>
      .pushed inp.buf
        { s with referenceImg := some inp.buf.img
                 lastOutput := some inp.buf.img
                 referenceBlob := none }
  | some _ =>
      if s.finderCreated = false ∧ cfg.algorithm ≠ 1 ∧ cfg.algorithm ≠ 2 then
        .raised .valueError s
      else
        let s := { s with finderCreated := true }
        match inp.flow with
        | none => .pushed inp.buf s
        | some _ =>
          match inp.fitResult with
          | none =>
              .pushed inp.buf
                { s with referenceImg := some inp.buf.img, referenceBlob := none }
          | some t =>
            let acc := if cfg.multiplyTransforms then mul3 t s.referenceTransform else t
            let s := { s with referenceTransform := acc }
            match s.lastOutput with
            | none => .raised .attrError s
            | some lastOut =>
              match inp.warpFn inp.buf.img acc lastOut with
              | none =>
                  .pushed inp.buf
                    { s with referenceImg := some inp.buf.img, referenceBlob := none }
              | some newImg =>
                  let newBuf : Buf := { img := newImg, ts := inp.buf.ts }
                  let s :=
                    if cfg.multiplyTransforms then
                      { s with referenceImg := some inp.buf.img,
                               referenceBlob := some inp.blob }
                    else
                      { s with referenceImg := some newImg,
                               referenceBlob := some inp.warpBlobResult }
                  .pushed newBuf { s with lastOutput := some newImg }

/-- Run `_chain` over a sequence of frames; an uncaught exception stops the
run with the state at the raise. -/
def runChain (cfg : CorrConfig) : CorrState → List StepInput → CorrState
  | s, [] => s
  | s, i :: rest =>
      match chainStep cfg s i with
      | .pushed _ s' => runChain cfg s' rest
      | .raised _ s' => s'

/-- The fitted transform an input carries (identity when the fit failed;
used only under hypotheses that make the fit succeed). -/
def fitOf (i : StepInput) : Mat3 := i.fitResult.getD idMat

/-- The accumulator value after the `try` block of one `_chain` call: left
untouched when the fit raises, otherwise updated before the warp runs
(`transform.dot(acc)` under `multiply_transforms`, replacement
otherwise). -/
def accAfter (cfg : CorrConfig) (s : CorrState) (inp : StepInput) : Mat3 :=
  match inp.fitResult with
  | none => s.referenceTransform
  | some t => if cfg.multiplyTransforms then mul3 t s.referenceTransform else t

/-! ## Concrete instances used by counterexamples and witnesses -/

/-- A tracking-established corrector state: reference image `7`, an anchor
blob, last output `7`, identity accumulator, finder built. -/
def sTrack : CorrState :=
  { referenceImg := some 7
    referenceBlob := some 3
    lastOutput := some 7
    referenceTransform := idMat
    finderCreated := true }

/-- A frame input whose flow is the empty (but present) correspondence set
and whose homography fit fails, as the vision contract mandates below 4
correspondences. -/
def inpEmptyFlow : StepInput :=
  { buf := { img := 9, ts := 5 }
    flow := some { points0 := [], points1 := [] }
    blob := 0
    fitResult := none
    warpFn := fun _ _ _ => none
    warpBlobResult := 0 }

/-- Lucas-Kanade configuration, direct accumulation. -/
def cfgLK : CorrConfig := { algorithm := 1, multiplyTransforms := false }

/-- Lucas-Kanade configuration, composed accumulation
(`multiply_transforms` on). -/
def cfgLKmul : CorrConfig := { algorithm := 1, multiplyTransforms := true }

/-- A configuration selecting the unknown algorithm number `3`. -/
def cfgUnknown : CorrConfig := { algorithm := 3, multiplyTransforms := false }

/-- A first frame for the unknown-algorithm run. -/
def inpFirst : StepInput :=
  { buf := { img := 4, ts := 0 }
    flow := none
    blob := 0
    fitResult := none
    warpFn := fun _ _ _ => none
    warpBlobResult := 0 }

/-- The corrector state after that first frame: reference and last output
hold image `4`, anchor absent, finder still not built. -/
def sAfterFirst : CorrState :=
  { referenceImg := some 4
    referenceBlob := none
    lastOutput := some 4
    referenceTransform := idMat
    finderCreated := false }

/-- A frame input whose flow and fit succeed (transform doubling the `x`
coordinate) and whose warp succeeds with output image `11`. -/
def inpFitOk : StepInput :=
  { buf := { img := 9, ts := 5 }
    flow := some { points0 := [(1, 1)], points1 := [(2, 1)] }
    blob := 6
    fitResult := some ⟨2, 0, 0, 0, 1, 0, 0, 0, 1⟩
    warpFn := fun _ _ _ => some 11
    warpBlobResult := 8 }

/-- A frame input whose flow succeeds but whose fit raises `cv2.error`. -/
def inpFitFail : StepInput :=
  { buf := { img := 13, ts := 6 }
    flow := some { points0 := [(1, 1)], points1 := [(2, 1)] }
    blob := 6
    fitResult := none
    warpFn := fun _ _ _ => some 11
    warpBlobResult := 8 }

/-- A frame input whose fit succeeds but whose warp raises `cv2.error`. -/
def inpWarpFail : StepInput :=
  { buf := { img := 14, ts := 7 }
    flow := some { points0 := [(1, 1)], points1 := [(3, 1)] }
    blob := 6
    fitResult := some ⟨3, 0, 0, 0, 1, 0, 0, 0, 1⟩
    warpFn := fun _ _ _ => none
    warpBlobResult := 8 }

/-! ## Helper lemmas -/

theorem mul3_idMat (m : Mat3) : mul3 m idMat = m := by
  cases m; simp [mul3, idMat]

theorem idMat_mul3 (m : Mat3) : mul3 idMat m = m := by
  cases m; simp [mul3, idMat]

theorem mul3_assoc (a b c : Mat3) :
    mul3 (mul3 a b) c = mul3 a (mul3 b c) := by
  cases a; cases b; cases c
  simp only [mul3, Mat3.mk.injEq]
  refine ⟨?_, ?_, ?_, ?_, ?_, ?_, ?_, ?_, ?_⟩ <;> ring

theorem foldr_mul3 (l : List Mat3) (x : Mat3) :
    l.foldr mul3 x = mul3 (matProd l) x := by
  induction l with
  | nil => simp [matProd, idMat_mul3]
  | cons a l ih =>
      show mul3 a (l.foldr mul3 x) = mul3 (mul3 a (matProd l)) x
      rw [ih, mul3_assoc]

theorem matProd_append_singleton (l : List Mat3) (t : Mat3) :
    matProd (l ++ [t]) = mul3 (matProd l) t := by
  simp only [matProd, List.foldr_append, List.foldr_cons, List.foldr_nil]
  rw [mul3_idMat]
  exact foldr_mul3 l t

theorem mem_allBoolLists : ∀ (bs : List Bool), bs ∈ allBoolLists bs.length := by
  intro bs
  induction bs with
  | nil => simp [allBoolLists]
  | cons b bs ih =>
      simp only [List.length_cons, allBoolLists, List.mem_flatMap]
      refine ⟨bs, ih, ?_⟩
      cases b <;> simp

/-- The `cv2.error` handler of `_chain`, characterized: once a reference
exists, the finder can be built, a flow is present, and either the fit
raises or the warp raises (with a last output to warp over), the call
pushes the raw input buffer and the new state keeps everything except that
the reference image becomes the current raw image, the anchor blob is
cleared, and the accumulator holds whatever value the `try` block gave it
before the raise. -/
theorem chainStep_except_branch (cfg : CorrConfig) (s : CorrState) (inp : StepInput)
    (href : s.referenceImg.isSome = true)
    (halg : s.finderCreated = true ∨ cfg.algorithm = 1 ∨ cfg.algorithm = 2)
    (hflow : inp.flow.isSome = true)
    (hfail : inp.fitResult = none ∨
      (s.lastOutput.isSome = true ∧ ∀ a m d, inp.warpFn a m d = none)) :
    chainStep cfg s inp = .pushed inp.buf
      { s with finderCreated := true
               referenceTransform := accAfter cfg s inp
               referenceImg := some inp.buf.img
               referenceBlob := none } := by
  obtain ⟨r, hr⟩ := Option.isSome_iff_exists.mp href
  obtain ⟨f, hf⟩ := Option.isSome_iff_exists.mp hflow
  have hcond : ¬(s.finderCreated = false ∧ cfg.algorithm ≠ 1 ∧ cfg.algorithm ≠ 2) := by
    rcases halg with h | h | h <;> simp [h]
  rcases hfail with hfit | ⟨hlast, hwarp⟩
  · simp [chainStep, hr, hf, hfit, hcond, accAfter]
  · obtain ⟨lo, hlo⟩ := Option.isSome_iff_exists.mp hlast
    cases hfit : inp.fitResult with
    | none => simp [chainStep, hr, hf, hfit, hcond, accAfter]
    | some t => simp [chainStep, hr, hf, hfit, hcond, hwarp, hlo, accAfter]

/-- Accumulator evolution of `_chain` runs in composed mode: every frame
with a present flow and a successful fit multiplies its fitted transform
onto the left of the accumulator, regardless of whether the subsequent
warp succeeds. -/
theorem runChain_multiply_acc (cfg : CorrConfig) (hmul : cfg.multiplyTransforms = true) :
    ∀ (inputs : List StepInput) (s : CorrState),
      s.referenceImg.isSome = true → s.finderCreated = true →
      s.lastOutput.isSome = true →
      (∀ i ∈ inputs, i.flow.isSome = true ∧ i.fitResult.isSome = true) →
      (runChain cfg s inputs).referenceTransform
        = mul3 (matProd ((inputs.map fitOf).reverse)) s.referenceTransform := by
  intro inputs
  induction inputs with
  | nil =>
      intro s _ _ _ _
      simp [runChain, matProd, idMat_mul3]
  | cons i rest ih =>
      intro s href hfc hlast hall
      obtain ⟨hiflow, hifit⟩ := hall i (List.mem_cons_self i rest)
      obtain ⟨r, hr⟩ := Option.isSome_iff_exists.mp href
      obtain ⟨lo, hlo⟩ := Option.isSome_iff_exists.mp hlast
      obtain ⟨f, hf⟩ := Option.isSome_iff_exists.mp hiflow
      obtain ⟨t, ht⟩ := Option.isSome_iff_exists.mp hifit
      have hrest : ∀ j ∈ rest, j.flow.isSome = true ∧ j.fitResult.isSome = true :=
        fun j hj => hall j (List.mem_cons_of_mem i hj)
      have hmap : ((i :: rest).map fitOf).reverse
          = (rest.map fitOf).reverse ++ [fitOf i] := by
        simp
      cases hw : i.warpFn i.buf.img (mul3 t s.referenceTransform) lo with
      | none =>
          have hstep : chainStep cfg s i = .pushed i.buf
              { s with finderCreated := true
                       referenceTransform := mul3 t s.referenceTransform
                       referenceImg := some i.buf.img
                       referenceBlob := none } := by
            simp [chainStep, hr, hf, ht, hmul, hfc, hlo, hw]
          simp only [runChain, hstep]
          rw [ih { referenceImg := some i.buf.img, referenceBlob := none,
                   lastOutput := s.lastOutput,
                   referenceTransform := mul3 t s.referenceTransform,
                   finderCreated := true } rfl rfl hlast hrest]
          rw [hmap, matProd_append_singleton, mul3_assoc]
          simp [fitOf, ht]
      | some newImg =>
          have hstep : chainStep cfg s i = .pushed { img := newImg, ts := i.buf.ts }
              { s with finderCreated := true
                       referenceTransform := mul3 t s.referenceTransform
                       referenceImg := some i.buf.img
                       referenceBlob := some i.blob
                       lastOutput := some newImg } := by
            simp [chainStep, hr, hf, ht, hmul, hfc, hlo, hw]
          simp only [runChain, hstep]
          rw [ih { referenceImg := some i.buf.img, referenceBlob := some i.blob,
                   lastOutput := some newImg,
                   referenceTransform := mul3 t s.referenceTransform,
                   finderCreated := true } rfl rfl rfl hrest]
          rw [hmap, matProd_append_singleton, mul3_assoc]
          simp [fitOf, ht]

/-! ## Claim theorems -/

/-- C1: the claim that the filtering step removes exactly the point pairs
with failed status or an endpoint in an active ignore box, returning
origins and destinations of equal length with preserved index alignment,
fails on the code.  With the active box `[0,10] × [0,10]`, a single
tracked pair with origin `(5,5)` (inside the box) and destination
`(20,20)` (outside), status success: the source filters the two lists
independently, dropping the origin but keeping the destination, so the
returned sequences have lengths 0 and 1 — the pair is not removed as a
pair and the documented index alignment is broken. -/
theorem C1_filter_breaks_pair_alignment :
    opticalFlowFilter { minX := 0, maxX := 10, minY := 0, maxY := 10 }
        [((5 : ℚ), (5 : ℚ))] [((20 : ℚ), (20 : ℚ))] [true] [0]
      = ([], [((20 : ℚ), (20 : ℚ))]) ∧
    (opticalFlowFilter { minX := 0, maxX := 10, minY := 0, maxY := 10 }
        [((5 : ℚ), (5 : ℚ))] [((20 : ℚ), (20 : ℚ))] [true] [0]).1.length
      ≠ (opticalFlowFilter { minX := 0, maxX := 10, minY := 0, maxY := 10 }
        [((5 : ℚ), (5 : ℚ))] [((20 : ℚ), (20 : ℚ))] [true] [0]).2.length := by
  exact ⟨by decide, by decide⟩

/-- C2 counterexample: a zero-correspondence (empty but present) flow does
not leave the reference state unchanged.  From a tracking state with
reference image `7`, a frame with image `9` and empty correspondence
lists (whose homography fit raises, as the vision contract mandates below
4 correspondences) is pushed through raw, but the reference image is
reset to `9` and the anchor cleared — the state differs from the old
one, refuting the claim at this input. -/
theorem C2_counterexample :
    chainStep cfgLK sTrack inpEmptyFlow
      = .pushed inpEmptyFlow.buf
          { sTrack with referenceImg := some 9, referenceBlob := none } ∧
    ({ sTrack with referenceImg := some 9, referenceBlob := none } : CorrState)
      ≠ sTrack := by
  exact ⟨rfl, by decide⟩

/-- C2 (amended): a `None` motion record is passed through raw with the
reference state unchanged; an empty-but-present correspondence set, whose
homography fit fails per the external contract, is also passed through
raw, but the reference image is reset to the current raw image and the
anchor cleared, while the accumulator and the last-output image stay
unchanged. -/
theorem C2_zero_correspondences (cfg : CorrConfig) (s : CorrState) (inp : StepInput)
    (href : s.referenceImg.isSome = true) (hfc : s.finderCreated = true) :
    (inp.flow = none → chainStep cfg s inp = .pushed inp.buf s) ∧
    (inp.flow = some { points0 := [], points1 := [] } → inp.fitResult = none →
      chainStep cfg s inp = .pushed inp.buf
        { s with referenceImg := some inp.buf.img, referenceBlob := none } ∧
      ({ s with referenceImg := some inp.buf.img,
                referenceBlob := none } : CorrState).lastOutput = s.lastOutput ∧
      ({ s with referenceImg := some inp.buf.img,
                referenceBlob := none } : CorrState).referenceTransform
        = s.referenceTransform) := by
  obtain ⟨r, hr⟩ := Option.isSome_iff_exists.mp href
  constructor
  · intro hfl
    have : chainStep cfg s inp = .pushed inp.buf { s with finderCreated := true } := by
      simp [chainStep, hr, hfl, hfc]
    rw [this]
    have hs : ({ s with finderCreated := true } : CorrState) = s := by
      cases s
      simp_all
    rw [hs]
  · intro hfl hfit
    refine ⟨?_, rfl, rfl⟩
    have hcond : ¬(s.finderCreated = false ∧ cfg.algorithm ≠ 1 ∧ cfg.algorithm ≠ 2) := by
      simp [hfc]
    have := chainStep_except_branch cfg s inp href (Or.inl hfc)
      (by simp [hfl]) (Or.inl hfit)
    rw [this]
    have hacc : accAfter cfg s inp = s.referenceTransform := by
      simp [accAfter, hfit]
    rw [hacc]
    cases s
    simp_all

/-- C2 witness: the amended behavior evaluated at a concrete tracking
state and a concrete empty-correspondence frame. -/
theorem C2_zero_correspondences_witness :
    chainStep cfgLK sTrack inpEmptyFlow = .pushed inpEmptyFlow.buf
        { sTrack with referenceImg := some inpEmptyFlow.buf.img,
                      referenceBlob := none } ∧
    ({ sTrack with referenceImg := some inpEmptyFlow.buf.img,
                   referenceBlob := none } : CorrState).lastOutput = sTrack.lastOutput ∧
    ({ sTrack with referenceImg := some inpEmptyFlow.buf.img,
                   referenceBlob := none } : CorrState).referenceTransform
      = sTrack.referenceTransform :=
  (C2_zero_correspondences cfgLK sTrack inpEmptyFlow rfl rfl).2 rfl rfl

/-- C3: the claim that the lazily built mask is `0` exactly on the box
pixels and `1` elsewhere fails on the code for non-square frames.  The
mask loop writes `data[y*height + x] = 0` instead of `data[y*width + x]`:
for a 4×2 frame with the one-pixel box `(3,3,1,1)` the built data zeroes
linear index 5 — pixel `(1,1)` of the row-major `height × width` matrix —
while the box pixel `(3,1)` (index 7) keeps value `1`, diverging from the
mask the specification describes. -/
theorem C3_mask_wrong_pixel :
    buildMaskData 4 2 { minX := 3, maxX := 3, minY := 1, maxY := 1 }
      = some [1, 1, 1, 1, 1, 0, 1, 1] ∧
    specMaskList 4 2 { minX := 3, maxX := 3, minY := 1, maxY := 1 }
      = [1, 1, 1, 1, 1, 1, 1, 0] ∧
    buildMaskData 4 2 { minX := 3, maxX := 3, minY := 1, maxY := 1 }
      ≠ some (specMaskList 4 2 { minX := 3, maxX := 3, minY := 1, maxY := 1 }) := by
  refine ⟨?_, ?_, ?_⟩ <;> decide

/-- C4: whenever both muxer queues are non-empty and the two head
timestamps differ, `_try_mux` returns the fatal `gst.FLOW_ERROR` and
emits nothing (no recovery, no resynchronization); and for main
timestamps `[10, 20]` against motion timestamps `[10, 25]`, the first
pairing succeeds at timestamp 10 and the second pairing attempt returns
the fatal error. -/
theorem C4_timestamp_mismatch_is_fatal :
    (∀ (s : MuxState) (fb : FlowBuf) (fs : List FlowBuf) (mb : Nat) (ms : List Nat),
        s.pendingFlow = fb :: fs → s.pendingMain = mb :: ms → mb ≠ fb.ts →
        (tryMux s).status = .error ∧ (tryMux s).emitted = none) ∧
    runMux initMuxState
        [.main 10, .flow { ts := 10, data := 100 },
         .main 20, .flow { ts := 25, data := 101 }]
      = ([(10, 100)], false) := by
  constructor
  · intro s fb fs mb ms hf hm hne
    constructor <;> simp [tryMux, hf, hm, hne]
  · decide

/-- C4 witness: the universal mismatch case evaluated at one-element
queues with head timestamps 7 and 5. -/
theorem C4_timestamp_mismatch_is_fatal_witness :
    (tryMux { pendingFlow := [{ ts := 5, data := 0 }], pendingMain := [7] }).status
        = .error ∧
    (tryMux { pendingFlow := [{ ts := 5, data := 0 }], pendingMain := [7] }).emitted
        = none :=
  C4_timestamp_mismatch_is_fatal.1 _ { ts := 5, data := 0 } [] 7 [] rfl rfl (by decide)

/-- C5: a pairing is attempted only when both queues are non-empty (an
empty side leaves the state untouched and emits nothing); when both heads
carry equal timestamps they are popped, the deserialized record is handed
to the combine operation, and its result is emitted; consequently, for
main timestamps `[10, 20, 30]` and motion timestamps `[10, 20, 30]`
arriving in-order per port under any interleaving, exactly the three
pairs are emitted, in timestamp order 10, 20, 30, all calls returning
`gst.FLOW_OK`. -/
theorem C5_lockstep_muxing :
    (∀ s : MuxState, s.pendingFlow = [] ∨ s.pendingMain = [] →
        tryMux s = { status := .ok, state := s, emitted := none, decoded := none }) ∧
    (∀ (s : MuxState) (fb : FlowBuf) (fs : List FlowBuf) (mb : Nat) (ms : List Nat),
        s.pendingFlow = fb :: fs → s.pendingMain = mb :: ms → mb = fb.ts →
        tryMux s = { status := .ok,
                     state := { pendingFlow := fs, pendingMain := ms },
                     emitted := some (mb, loadsFlow fb.data),
                     decoded := some (loadsFlow fb.data) }) ∧
    (∀ bs : List Bool, bs.length = 6 → bs.count true = 3 →
        runMux initMuxState (interleave bs [10, 20, 30]
            [{ ts := 10, data := 1 }, { ts := 20, data := 2 }, { ts := 30, data := 3 }])
          = ([(10, 1), (20, 2), (30, 3)], true)) := by
  refine ⟨?_, ?_, ?_⟩
  · intro s h
    obtain ⟨pf, pm⟩ := s
    rcases h with h | h
    · have hpf : pf = [] := h
      subst hpf
      rfl
    · have hpm : pm = [] := h
      subst hpm
      cases pf <;> rfl
  · intro s fb fs mb ms hf hm heq
    simp [tryMux, hf, hm, heq]
  · have key : ∀ bs ∈ allBoolLists 6, bs.count true = 3 →
        runMux initMuxState (interleave bs [10, 20, 30]
            [{ ts := 10, data := 1 }, { ts := 20, data := 2 }, { ts := 30, data := 3 }])
          = ([(10, 1), (20, 2), (30, 3)], true) := by decide
    intro bs hlen hcount
    refine key bs ?_ hcount
    rw [← hlen]
    exact mem_allBoolLists bs

/-- C5 witness: the interleaving that strictly alternates main and motion
arrivals, evaluated concretely. -/
theorem C5_lockstep_muxing_witness :
    runMux initMuxState (interleave [true, false, true, false, true, false]
        [10, 20, 30]
        [{ ts := 10, data := 1 }, { ts := 20, data := 2 }, { ts := 30, data := 3 }])
      = ([(10, 1), (20, 2), (30, 3)], true) :=
  C5_lockstep_muxing.2.2 [true, false, true, false, true, false] rfl rfl

/-- C6: on any frame whose homography fit raises, or whose warp raises,
the corrector pushes the current raw buffer unmodified and the new state
has the reference image reset to the raw image of that frame with the
anchor blob absent — the next frame therefore tracks against this frame
as a fresh reference. -/
theorem C6_transform_failure_resets_reference (cfg : CorrConfig) (s : CorrState)
    (inp : StepInput)
    (href : s.referenceImg.isSome = true)
    (halg : s.finderCreated = true ∨ cfg.algorithm = 1 ∨ cfg.algorithm = 2)
    (hflow : inp.flow.isSome = true)
    (hfail : inp.fitResult = none ∨
      (s.lastOutput.isSome = true ∧ ∀ a m d, inp.warpFn a m d = none)) :
    ∃ s2, chainStep cfg s inp = .pushed inp.buf s2 ∧
      s2.referenceImg = some inp.buf.img ∧ s2.referenceBlob = none :=
  ⟨_, chainStep_except_branch cfg s inp href halg hflow hfail, rfl, rfl⟩

/-- C6 witness: the fit-failure recovery evaluated at a concrete tracking
state. -/
theorem C6_transform_failure_resets_reference_witness :
    ∃ s2, chainStep cfgLK sTrack inpFitFail = .pushed inpFitFail.buf s2 ∧
      s2.referenceImg = some inpFitFail.buf.img ∧ s2.referenceBlob = none :=
  C6_transform_failure_resets_reference cfgLK sTrack inpFitFail rfl
    (Or.inl rfl) rfl (Or.inl rfl)

/-- C7: the accumulator starts at the 3×3 identity, and over any composed
mode run in which every frame carries a present flow and a successful fit
`T_1, ..., T_N` (in arrival order), the final accumulator equals
`T_N · T_{N-1} · ... · T_1` times the starting accumulator — the product
of the fitted transforms, each left-multiplied on. -/
theorem C7_composed_accumulator :
    initCorrState.referenceTransform = idMat ∧
    ∀ (cfg : CorrConfig) (s : CorrState) (inputs : List StepInput),
      cfg.multiplyTransforms = true →
      s.referenceImg.isSome = true → s.finderCreated = true →
      s.lastOutput.isSome = true →
      (∀ i ∈ inputs, i.flow.isSome = true ∧ i.fitResult.isSome = true) →
      (runChain cfg s inputs).referenceTransform
        = mul3 (matProd ((inputs.map fitOf).reverse)) s.referenceTransform :=
  ⟨rfl, fun cfg s inputs hmul href hfc hlast hall =>
    runChain_multiply_acc cfg hmul inputs s href hfc hlast hall⟩

/-- C7 witness: a single successful composed-mode frame from the identity
accumulator. -/
theorem C7_composed_accumulator_witness :
    (runChain cfgLKmul sTrack [inpFitOk]).referenceTransform
      = mul3 (matProd (([inpFitOk].map fitOf).reverse)) sTrack.referenceTransform :=
  C7_composed_accumulator.2 cfgLKmul sTrack [inpFitOk] rfl rfl rfl rfl
    (by
      intro i hi
      rw [List.mem_singleton] at hi
      subst hi
      exact ⟨rfl, rfl⟩)

/-- C8 counterexample: with the unknown algorithm number 3 configured, the
first frame is fully processed — initialised as reference and pushed
downstream with no error — so the failure is not "at startup, before any
frame is processed"; the fatal `ValueError` is raised only when the
second frame arrives and the finder is first built. -/
theorem C8_counterexample :
    chainStep cfgUnknown initCorrState inpFirst = .pushed inpFirst.buf sAfterFirst ∧
    chainStep cfgUnknown sAfterFirst inpFirst = .raised .valueError sAfterFirst := by
  exact ⟨rfl, rfl⟩

/-- C8 (amended): an unknown algorithm selection raises the fatal
configuration `ValueError` not at startup but on the first frame that
needs the finder — the second frame of the stream: any first frame (no
reference yet) passes through unmodified, and any later frame arriving
while the finder is still unbuilt raises. -/
theorem C8_unknown_algorithm_deferred (cfg : CorrConfig) (s : CorrState)
    (inp : StepInput)
    (halg1 : cfg.algorithm ≠ 1) (halg2 : cfg.algorithm ≠ 2) :
    (s.referenceImg = none →
        chainStep cfg s inp = .pushed inp.buf
          { s with referenceImg := some inp.buf.img
                   lastOutput := some inp.buf.img
                   referenceBlob := none }) ∧
    (s.referenceImg.isSome = true → s.finderCreated = false →
        chainStep cfg s inp = .raised .valueError s) := by
  constructor
  · intro h
    simp [chainStep, h]
  · intro href hfc
    obtain ⟨r, hr⟩ := Option.isSome_iff_exists.mp href
    simp [chainStep, hr, hfc, halg1, halg2]

/-- C8 witness: the deferred configuration failure evaluated at the state
after the first frame of an unknown-algorithm run. -/
theorem C8_unknown_algorithm_deferred_witness :
    chainStep cfgUnknown sAfterFirst inpFirst = .raised .valueError sAfterFirst :=
  (C8_unknown_algorithm_deferred cfgUnknown sAfterFirst inpFirst
    (by decide) (by decide)).2 rfl rfl

/-- C9: when the fit or the warp raises, the last-output image is left
untouched by the recovery — the new state still holds the previous
successfully corrected output, not the raw frame pushed during the
glitch — while the reference image is reset to the current raw image and
the anchor cleared. -/
theorem C9_last_output_survives_failure (cfg : CorrConfig) (s : CorrState)
    (inp : StepInput)
    (href : s.referenceImg.isSome = true)
    (halg : s.finderCreated = true ∨ cfg.algorithm = 1 ∨ cfg.algorithm = 2)
    (hflow : inp.flow.isSome = true)
    (hfail : inp.fitResult = none ∨
      (s.lastOutput.isSome = true ∧ ∀ a m d, inp.warpFn a m d = none)) :
    ∃ s2, chainStep cfg s inp = .pushed inp.buf s2 ∧
      s2.lastOutput = s.lastOutput ∧
      s2.referenceImg = some inp.buf.img ∧ s2.referenceBlob = none :=
  ⟨_, chainStep_except_branch cfg s inp href halg hflow hfail, rfl, rfl, rfl⟩

/-- C9 witness: the warp-failure case evaluated at a concrete tracking
state, checking the last output survives. -/
theorem C9_last_output_survives_failure_witness :
    ∃ s2, chainStep cfgLK sTrack inpWarpFail = .pushed inpWarpFail.buf s2 ∧
      s2.lastOutput = sTrack.lastOutput ∧
      s2.referenceImg = some inpWarpFail.buf.img ∧ s2.referenceBlob = none :=
  C9_last_output_survives_failure cfgLK sTrack inpWarpFail rfl
    (Or.inl rfl) rfl (Or.inr ⟨rfl, fun _ _ _ => rfl⟩)

/-- C10: when a pairing attempt finds mismatched head timestamps, both
heads have already been popped (the new queues are the tails, so the
queues are not left unchanged by the error) and the motion record has
already been deserialized, before the fatal error is returned. -/
theorem C10_desync_consumes_heads (s : MuxState) (fb : FlowBuf) (fs : List FlowBuf)
    (mb : Nat) (ms : List Nat)
    (hf : s.pendingFlow = fb :: fs) (hm : s.pendingMain = mb :: ms)
    (hne : mb ≠ fb.ts) :
    (tryMux s).status = .error ∧
    (tryMux s).state = { pendingFlow := fs, pendingMain := ms } ∧
    (tryMux s).state.pendingFlow ≠ s.pendingFlow ∧
    (tryMux s).state.pendingMain ≠ s.pendingMain ∧
    (tryMux s).decoded = some (loadsFlow fb.data) := by
  have hstep : tryMux s
      = { status := .error,
          state := { pendingFlow := fs, pendingMain := ms },
          emitted := none,
          decoded := some (loadsFlow fb.data) } := by
    simp [tryMux, hf, hm, hne]
  rw [hstep, hf, hm]
  refine ⟨rfl, rfl, ?_, ?_, rfl⟩
  · intro h
    have := congrArg List.length h
    simp only [List.length_cons] at this
    omega
  · intro h
    have := congrArg List.length h
    simp only [List.length_cons] at this
    omega

/-- C10 witness: the mismatch case evaluated at one-element queues with
head timestamps 12 and 11. -/
theorem C10_desync_consumes_heads_witness :
    (tryMux { pendingFlow := [{ ts := 11, data := 42 }], pendingMain := [12] }).status
        = .error ∧
    (tryMux { pendingFlow := [{ ts := 11, data := 42 }],
              pendingMain := [12] }).state
        = { pendingFlow := [], pendingMain := [] } ∧
    (tryMux { pendingFlow := [{ ts := 11, data := 42 }],
              pendingMain := [12] }).state.pendingFlow
        ≠ ({ pendingFlow := [{ ts := 11, data := 42 }],
             pendingMain := [12] } : MuxState).pendingFlow ∧
    (tryMux { pendingFlow := [{ ts := 11, data := 42 }],
              pendingMain := [12] }).state.pendingMain
        ≠ ({ pendingFlow := [{ ts := 11, data := 42 }],
             pendingMain := [12] } : MuxState).pendingMain ∧
    (tryMux { pendingFlow := [{ ts := 11, data := 42 }],
              pendingMain := [12] }).decoded = some (loadsFlow 42) :=
  C10_desync_consumes_heads _ { ts := 11, data := 42 } [] 12 [] rfl rfl (by decide)

end GstStabilizer
